import Mathlib

set_option autoImplicit false

/-!
Verification of the change-gated upload pipeline of the
"Quick Save On Discord" Blender add-on (`src/__init__.py`).

The Python source is shallowly embedded: the global mutable flags
(`_REAL_CHANGE_DETECTED`, `_CHANGE_TYPES`) become an explicit `Globals`
record threaded through the functions; the filesystem is an explicit map
from paths to byte contents (`String → Option (List Nat)`); the SHA-1
accumulator is abstracted as a parameter `H` applied to the exact byte
stream the Python code feeds to `hashlib.sha1` via `update` calls;
UI side effects (`set_status`, `clear_status`, `report_info` and the
`show_*` helpers built from them) become symbolic `UIEvent`s collected
in a list, in emission order; the external 7-Zip process and the HTTP
`urlopen` call become parameters returning `Except`.
-/

/-- The constant `PARTIAL_HASH_CHUNK = 2 * 1024 * 1024` from the source (2 MiB). -/
def PARTIAL_HASH_CHUNK : Nat := 2 * 1024 * 1024

/-- A Python binary file handle opened with `open(path, "rb")`:
the full byte contents plus the current read position. -/
structure FileHandle where
  contents : List Nat
  pos : Nat
deriving DecidableEq, Repr

/-- Models `f.read(n)`: returns up to `n` bytes starting at the current position
and advances the position past them. -/
def fread (f : FileHandle) (n : Nat) : List Nat × FileHandle :=
  (((f.contents.drop f.pos).take n),
   { f with pos := min (f.pos + n) f.contents.length })

/-- Models `f.seek(p)`: moves the read position to `p`. -/
def fseek (f : FileHandle) (p : Nat) : FileHandle :=
  { f with pos := p }

/-- Models `str(size).encode("utf-8")`: the decimal digits of `n` as bytes. -/
def decimalBytes (n : Nat) : List Nat :=
  (toString n).toList.map Char.toNat

/-- The exact byte stream that `compute_partial_hash` feeds to the SHA-1
accumulator through its `h.update(...)` calls, simulated on a file handle:
`h.update(f.read(PARTIAL_HASH_CHUNK))`; if `size > PARTIAL_HASH_CHUNK`
then `f.seek(max(size - PARTIAL_HASH_CHUNK, 0))` followed by
`h.update(f.read(PARTIAL_HASH_CHUNK))`; finally
`h.update(str(size).encode("utf-8"))`. -/
def compute_partial_hash_stream (file : List Nat) : List Nat :=
  let size := file.length
  let f0 : FileHandle := ⟨file, 0⟩
  let r1 := fread f0 PARTIAL_HASH_CHUNK
  let acc :=
    if size > PARTIAL_HASH_CHUNK then
      let f2 := fseek r1.2 (max (size - PARTIAL_HASH_CHUNK) 0)
      let r2 := fread f2 PARTIAL_HASH_CHUNK
      r1.1 ++ r2.1
    else
      r1.1
  acc ++ decimalBytes size

/-- Models `compute_partial_hash`: the hex digest of the stream above.  The SHA-1
digest function itself is abstracted as the parameter `H` (a digest is a
function of the concatenation of all `update` payloads). -/
def compute_partial_hash (H : List Nat → String) (file : List Nat) : String :=
  H (compute_partial_hash_stream file)

/-- The per-project settings record `DiscordProjectSettings`
(`webhook_url`, `auto_send`, `commit_message`, `cooldown_seconds`,
`last_send_time`, `last_file_hash`).  Times are modelled as rationals
(the source stores a Python float from `time.monotonic()`). -/
structure DiscordProjectSettings where
  webhook_url : String
  auto_send : Bool
  commit_message : String
  cooldown_seconds : Int
  last_send_time : ℚ
  last_file_hash : String
deriving DecidableEq, Repr

/-- The process-wide mutable globals `_REAL_CHANGE_DETECTED` and
`_CHANGE_TYPES` (the Python set is modelled as a list of its elements). -/
structure Globals where
  realChangeDetected : Bool
  changeTypes : List String
deriving DecidableEq, Repr

/-- Models `is_cooldown_active(settings)`: returns `(active, remaining)`.
`time.monotonic()` is the explicit parameter `now`. -/
def is_cooldown_active (s : DiscordProjectSettings) (now : ℚ) : Bool × ℚ :=
  if s.last_send_time ≤ 0 then
    (false, 0)
  else if s.cooldown_seconds ≤ 0 then
    (false, 0)
  else
    let elapsed := now - s.last_send_time
    let remaining := (s.cooldown_seconds : ℚ) - elapsed
    (decide (remaining > 0), max 0 remaining)

/-- Does the character pattern `pat` occur as a contiguous substring of
`l`?  (Models Python's `in` operator on strings and left-to-right
substring search.) -/
def containsSub (pat : List Char) : List Char → Bool
  | [] => pat.isPrefixOf []
  | c :: rest => pat.isPrefixOf (c :: rest) || containsSub pat rest

/-- Models `os.path.basename`: the part of the path after the last `/` or `\`
separator (the add-on targets Windows, whose `ntpath` splits on both). -/
def basename (p : String) : String :=
  String.mk (p.toList.foldl (fun acc c =>
    if c = '/' ∨ c = '\\' then [] else acc ++ [c]) [])

/-- Python's `str.lower()`, character by character (ASCII names). -/
def pyLower (s : String) : String :=
  String.mk (s.toList.map Char.toLower)

/-- Models `is_autosave(filepath)`: true when the lower-cased base name contains
`"autosave"` or `"quit"`. -/
def is_autosave (filepath : String) : Bool :=
  let name := pyLower (basename filepath)
  containsSub "autosave".toList name.toList || containsSub "quit".toList name.toList

/-- Python's `s.replace(".blend", ".7z")`: left-to-right, non-overlapping
replacement of every occurrence of `".blend"` by `".7z"`. -/
def replaceDotBlend : List Char → List Char
  | [] => []
  | c :: rest =>
    if ".blend".toList.isPrefixOf (c :: rest) then
      ".7z".toList ++ replaceDotBlend (rest.drop 5)
    else
      c :: replaceDotBlend rest
termination_by l => l.length
decreasing_by
  · simp only [List.length_drop, List.length_cons]
    omega
  · simp only [List.length_cons]
    omega

/-- Models `os.path.join(tempdir, name)` for a relative `name`: the directory
followed by a separator and the name. -/
def path_join (dir name : String) : String :=
  dir ++ "/" ++ name

/-- The output path computed by `compress_blend_7z(filepath)`:
`os.path.join(tempfile.gettempdir(), os.path.basename(filepath).replace(".blend", ".7z"))`,
with the temporary directory an explicit parameter. -/
def compress_out_path (tempdir filepath : String) : String :=
  path_join tempdir (String.mk (replaceDotBlend (basename filepath).toList))

/-- Insert a string into a sorted list of strings (ascending). -/
def insertStr (x : String) : List String → List String
  | [] => [x]
  | y :: ys => if x < y then x :: y :: ys else y :: insertStr x ys

/-- Models `sorted(...)` on a list of strings (ascending insertion sort). -/
def sortStrs : List String → List String
  | [] => []
  | x :: xs => insertStr x (sortStrs xs)

/-- Models `build_commit_message(settings)`: the trimmed configured message if
non-empty, else `"Update: "` plus the sorted change categories if any,
else `"Update: Scene modified"`. -/
def build_commit_message (s : DiscordProjectSettings) (changeTypes : List String) : String :=
  if s.commit_message.trim ≠ "" then
    s.commit_message.trim
  else if changeTypes ≠ [] then
    "Update: " ++ String.intercalate ", " (sortStrs changeTypes)
  else
    "Update: Scene modified"

/-- Escape one character as inside a `json.dumps` string literal.
(Non-ASCII characters are left unescaped in this model; the claims do
not depend on `ensure_ascii`.) -/
def jsonEscapeChar (c : Char) : String :=
  if c = '"' then "\\\""
  else if c = '\\' then "\\\\"
  else if c = '\n' then "\\n"
  else if c = '\r' then "\\r"
  else if c = '\t' then "\\t"
  else String.mk [c]

/-- Models `json.dumps({"content": message}).encode("utf-8")`: the serialized
one-field JSON object (default separators, so `": "` after the key). -/
def json_dumps_content (message : String) : String :=
  "\x7b\"content\": \"" ++ String.join (message.toList.map jsonEscapeChar) ++ "\"\x7d"

/-- A `urllib.request.Request`: URL, raw body bytes (modelled as a
string of byte-characters), header list in construction order, method. -/
structure HttpRequest where
  url : String
  data : String
  headers : List (String × String)
  method : String
deriving DecidableEq, Repr

/-- One `urllib.request.urlopen(req, timeout=...)` call. -/
structure UrlopenCall where
  req : HttpRequest
  timeout : ℚ
deriving DecidableEq, Repr

/-- The fixed multipart boundary token from the source. -/
def BOUNDARY : String := "----BlenderDiscordBoundary"

/-- Models `send_to_discord(webhook, archive, message)`: reads the archive bytes
from the filesystem `fs`, builds the multipart body exactly as the
source's string concatenation does, and returns the `urlopen` call it
performs (errored if the archive cannot be read). -/
def send_to_discord (fs : String → Option String) (webhook archive message : String) :
    Except String UrlopenCall :=
  match fs archive with
  | Option.none => Except.error "IOError: cannot read archive"
  | Option.some file_data =>
    let boundary := BOUNDARY
    let payload := json_dumps_content message
    let body :=
      ("--" ++ boundary ++ "\r\n" ++
       "Content-Disposition: form-data; name=\"payload_json\"\r\n" ++
       "Content-Type: application/json\r\n\r\n")
      ++ payload ++
      ("\r\n--" ++ boundary ++ "\r\n" ++
       "Content-Disposition: form-data; name=\"file\"; filename=\"" ++ basename archive ++ "\"\r\n" ++
       "Content-Type: application/x-7z-compressed\r\n\r\n")
      ++ file_data ++
      ("\r\n--" ++ boundary ++ "--\r\n")
    Except.ok
      { req :=
          { url := webhook
            data := body
            headers :=
              [("Content-Type", "multipart/form-data; boundary=" ++ boundary),
               ("Content-Length", toString body.length),
               ("User-Agent", "BlenderDiscordUploader")]
            method := "POST" }
        timeout := 30 }

/-- One part of a multipart/form-data body, as the spec's wire contract
describes it: a form name, a content type, an optional filename, and the
raw part body. -/
structure MultipartPart where
  name : String
  contentType : String
  filename : Option String
  body : String
deriving DecidableEq, Repr

/-- Render one multipart part: boundary line, `Content-Disposition`
with the name (and filename when present), `Content-Type`, blank line,
body. -/
def renderPart (boundary : String) (p : MultipartPart) : String :=
  "--" ++ boundary ++ "\r\n" ++
  "Content-Disposition: form-data; name=\"" ++ p.name ++ "\"" ++
  (match p.filename with
   | Option.none => ""
   | Option.some fn => "; filename=\"" ++ fn ++ "\"") ++ "\r\n" ++
  "Content-Type: " ++ p.contentType ++ "\r\n\r\n" ++
  p.body

/-- Render a whole multipart/form-data body: the parts in order, each
followed by CRLF, then the closing boundary line. -/
def renderMultipart (boundary : String) (parts : List MultipartPart) : String :=
  String.join (parts.map (fun p => renderPart boundary p ++ "\r\n"))
  ++ "--" ++ boundary ++ "--\r\n"

/-- A UI side effect, in emission order.  `statusCompressing`,
`statusUploading` and `statusUploadComplete` are the `set_status` calls
with the corresponding texts; `clearStatus d` is `clear_status(d)`;
`errorNotice msg` is the `report_info(str(e))` in the exception handler;
`cooldownNotice r` is `show_cooldown_status(r)` (notice + status + clear)
and `noChangeNotice` is `show_no_change_status()` likewise. -/
inductive UIEvent where
  | statusCompressing
  | statusUploading
  | statusUploadComplete
  | clearStatus (delay : ℚ)
  | errorNotice (msg : String)
  | cooldownNotice (remaining : ℚ)
  | noChangeNotice
deriving DecidableEq, Repr

/-- The arguments handed to the background `process_send` thread: the
saved file path, the autosave flag, and the fingerprint computed for
this save (the spec's `UploadJob`). -/
structure UploadJob where
  filepath : String
  autosave : Bool
  current_hash : String
deriving DecidableEq, Repr

/-- The spec's `GateDecision`, used to classify which branch of the save
handler fired. -/
inductive GateDecision where
  | SkipNotConfigured
  | SkipCooldown (remaining : ℚ)
  | SkipNoChange
  | Send (fp : String)
deriving DecidableEq, Repr

/-- Models `process_send(filepath, settings, autosave, current_hash)`: the
background job body.  The external collaborators are parameters:
`compress` models `compress_blend_7z` (7-Zip invocation, returning the
archive path or raising) and `upload` models `send_to_discord`
(raising on network/HTTP failure).  `now` is the `time.monotonic()`
read inside `save_state`.  Returns the settings, the globals, and the
UI events emitted, in order.  On success `save_state` (registered via
`bpy.app.timers`) writes `last_file_hash := current_hash`,
`last_send_time := now`, `commit_message := ""` and resets the globals;
any exception is caught and reported via `report_info` + `clear_status(3.0)`
with no state write. -/
def process_send
    (compress : String → Except String String)
    (upload : String → String → String → Except String Unit)
    (s : DiscordProjectSettings) (g : Globals)
    (filepath : String) (autosave : Bool) (current_hash : String) (now : ℚ) :
    DiscordProjectSettings × Globals × List UIEvent :=
  match compress filepath with
  | Except.error e =>
    (s, g, [UIEvent.statusCompressing, UIEvent.errorNotice e, UIEvent.clearStatus 3])
  | Except.ok archive =>
    match upload s.webhook_url archive (build_commit_message s g.changeTypes) with
    | Except.error e =>
      (s, g, [UIEvent.statusCompressing, UIEvent.statusUploading,
              UIEvent.errorNotice e, UIEvent.clearStatus 3])
    | Except.ok _ =>
      ({ s with last_file_hash := current_hash, last_send_time := now, commit_message := "" },
       { realChangeDetected := false, changeTypes := [] },
       [UIEvent.statusCompressing, UIEvent.statusUploading] ++
         (if autosave then [] else [UIEvent.statusUploadComplete, UIEvent.clearStatus 3]))

/-- Models `on_save_post`: the save handler (the Gate).  `fs` is the
filesystem, `now` the clock, `g` the process globals; the result is the
branch taken (as a `GateDecision`), the UI events emitted before any
thread is spawned, and the `UploadJob` handed to a `threading.Thread`
when one is started.  An unreadable file makes `compute_partial_hash`
raise, modelled as `Except.error`. -/
def on_save_post (H : List Nat → String) (fs : String → Option (List Nat))
    (s : DiscordProjectSettings) (filepath : String) (now : ℚ) (g : Globals) :
    Except String (GateDecision × List UIEvent × Option UploadJob) :=
  if ¬ s.auto_send ∨ filepath = "" ∨ s.webhook_url = "" then
    Except.ok (GateDecision.SkipNotConfigured, [], Option.none)
  else
    let autosave := is_autosave filepath
    let cd := is_cooldown_active s now
    if cd.1 then
      Except.ok (GateDecision.SkipCooldown cd.2,
        (if autosave then [] else [UIEvent.cooldownNotice cd.2]), Option.none)
    else
      match fs filepath with
      | Option.none => Except.error "IOError: cannot read file"
      | Option.some bytes =>
        let current_hash := compute_partial_hash H bytes
        if current_hash = s.last_file_hash ∨ ¬ g.realChangeDetected then
          Except.ok (GateDecision.SkipNoChange,
            (if autosave then [] else [UIEvent.noChangeNotice]), Option.none)
        else
          Except.ok (GateDecision.Send current_hash, [],
            Option.some ⟨filepath, autosave, current_hash⟩)

/-- Models `DISCORDSEND_OT_SendNow.execute`: like the save handler but with no
configuration guard, no autosave suppression, and `autosave := False`
in the spawned job.  An empty/unsaved `filepath` names no file, so
`compute_partial_hash` raises out of `execute` (`Except.error`). -/
def sendnow_execute (H : List Nat → String) (fs : String → Option (List Nat))
    (s : DiscordProjectSettings) (filepath : String) (now : ℚ) (g : Globals) :
    Except String (List UIEvent × Option UploadJob) :=
  let cd := is_cooldown_active s now
  if cd.1 then
    Except.ok ([UIEvent.cooldownNotice cd.2], Option.none)
  else
    match fs filepath with
    | Option.none => Except.error "FileNotFoundError"
    | Option.some bytes =>
      let current_hash := compute_partial_hash H bytes
      if current_hash = s.last_file_hash ∨ ¬ g.realChangeDetected then
        Except.ok ([UIEvent.noChangeNotice], Option.none)
      else
        Except.ok ([], Option.some ⟨filepath, false, current_hash⟩)

/-- How many background upload jobs are running after two save events
fire in rapid succession while the first job (if any) is still in
flight: neither the settings, the globals, nor any in-flight counter is
changed between the two `on_save_post` calls, because the source tracks
no in-flight state and the background thread has not yet committed.
Each call that hands a job to `threading.Thread(...).start()` adds one
running job. -/
def jobs_after_two_saves (H : List Nat → String) (fs : String → Option (List Nat))
    (s : DiscordProjectSettings) (filepath : String) (now₁ now₂ : ℚ) (g : Globals) : Nat :=
  (match on_save_post H fs s filepath now₁ g with
   | Except.ok (_, _, Option.some _) => 1
   | _ => 0) +
  (match on_save_post H fs s filepath now₂ g with
   | Except.ok (_, _, Option.some _) => 1
   | _ => 0)

/-! ## Theorems -/

/-- C4: the cooldown check: a state that has never sent
(`last_send_time` unset/zero, here `≤ 0`) is never in cooldown
regardless of `cooldown_seconds`; a non-positive `cooldown_seconds`
gives no cooldown; otherwise, with `elapsed = now - last_send_time` and
`remaining = cooldown_seconds - elapsed`, the check reports active
exactly when `remaining > 0`, returning `max 0 remaining`. -/
theorem c4_cooldown_check (s : DiscordProjectSettings) (now : ℚ) :
    (s.last_send_time ≤ 0 → is_cooldown_active s now = (false, 0)) ∧
    (s.cooldown_seconds ≤ 0 → is_cooldown_active s now = (false, 0)) ∧
    (0 < s.last_send_time → 0 < s.cooldown_seconds →
      ((is_cooldown_active s now).1 = true ↔
        0 < (s.cooldown_seconds : ℚ) - (now - s.last_send_time)) ∧
      (is_cooldown_active s now).2 =
        max 0 ((s.cooldown_seconds : ℚ) - (now - s.last_send_time))) := by
  refine ⟨fun h => by simp [is_cooldown_active, h], fun h => ?_, fun h1 h2 => ?_⟩
  · unfold is_cooldown_active
    split
    · rfl
    · simp [h]
  · have hA : ¬ s.last_send_time ≤ 0 := not_le.mpr h1
    have hB : ¬ s.cooldown_seconds ≤ 0 := not_le.mpr h2
    unfold is_cooldown_active
    rw [if_neg hA, if_neg hB]
    exact ⟨decide_eq_true_iff, rfl⟩

/-- Witness for C4 at concrete inputs: never-sent state (zero
timestamp), zero cooldown, and an active-window state. -/
theorem c4_cooldown_check_witness :
    is_cooldown_active ⟨"url", true, "", 30, 0, "h"⟩ 100 = (false, 0) ∧
    is_cooldown_active ⟨"url", true, "", 0, 5, "h"⟩ 100 = (false, 0) ∧
    ((is_cooldown_active ⟨"url", true, "", 30, 10, "h"⟩ 20).1 = true ↔
      0 < ((30 : Int) : ℚ) - (20 - 10)) ∧
    (is_cooldown_active ⟨"url", true, "", 30, 10, "h"⟩ 20).2 =
      max 0 (((30 : Int) : ℚ) - (20 - 10)) :=
  ⟨(c4_cooldown_check ⟨"url", true, "", 30, 0, "h"⟩ 100).1 (by norm_num),
   (c4_cooldown_check ⟨"url", true, "", 0, 5, "h"⟩ 100).2.1 (by norm_num),
   ((c4_cooldown_check ⟨"url", true, "", 30, 10, "h"⟩ 20).2.2 (by norm_num) (by norm_num)).1,
   ((c4_cooldown_check ⟨"url", true, "", 30, 10, "h"⟩ 20).2.2 (by norm_num) (by norm_num)).2⟩

/-- C6: the fingerprint hashes exactly the first `PARTIAL_HASH_CHUNK`
bytes, then (only when the file is longer than one chunk) the trailing
window starting at `max(size - CHUNK, 0)`, then the decimal string of
the size; when `size ≤ CHUNK` the whole stream is the file itself
followed by the size (no byte is hashed twice); and the fingerprint is
deterministic in the file bytes. -/
theorem c6_fingerprint_structure (file : List Nat) :
    compute_partial_hash_stream file =
      file.take PARTIAL_HASH_CHUNK ++
        (if PARTIAL_HASH_CHUNK < file.length then
           (file.drop (max (file.length - PARTIAL_HASH_CHUNK) 0)).take PARTIAL_HASH_CHUNK
         else []) ++
        decimalBytes file.length ∧
    (file.length ≤ PARTIAL_HASH_CHUNK →
      compute_partial_hash_stream file = file ++ decimalBytes file.length) ∧
    ∀ (H : List Nat → String) (file₂ : List Nat), file₂ = file →
      compute_partial_hash H file₂ = compute_partial_hash H file := by
  refine ⟨?_, fun h => ?_, fun H file₂ h => by rw [h]⟩
  · unfold compute_partial_hash_stream fread fseek
    generalize PARTIAL_HASH_CHUNK = C
    simp only [List.drop_zero, gt_iff_lt]
    split
    · rfl
    · simp
  · unfold compute_partial_hash_stream fread fseek
    revert h
    generalize PARTIAL_HASH_CHUNK = C
    intro h
    simp only [List.drop_zero, gt_iff_lt]
    rw [if_neg (by omega), List.take_of_length_le h]

/-- Witness for C6 at a concrete three-byte file. -/
theorem c6_fingerprint_structure_witness :
    (3 ≤ PARTIAL_HASH_CHUNK) ∧
    compute_partial_hash_stream [10, 20, 30] = [10, 20, 30] ++ decimalBytes 3 :=
  ⟨by decide, (c6_fingerprint_structure [10, 20, 30]).2.1 (by decide)⟩

/-- C2: when both the compression step and the upload step succeed,
`process_send` commits `last_file_hash := current_hash`,
`last_send_time := now`, `commit_message := ""` (and resets the change
globals), and emits the transient "upload complete" status (followed by
the delayed clear) exactly when the job is not an autosave/quit save. -/
theorem c2_success_updates_state
    (compress : String → Except String String)
    (upload : String → String → String → Except String Unit)
    (s : DiscordProjectSettings) (g : Globals)
    (filepath : String) (autosave : Bool) (current_hash : String) (now : ℚ)
    (archive : String)
    (hc : compress filepath = Except.ok archive)
    (hu : upload s.webhook_url archive (build_commit_message s g.changeTypes) = Except.ok ()) :
    process_send compress upload s g filepath autosave current_hash now =
      ({ s with last_file_hash := current_hash, last_send_time := now, commit_message := "" },
       { realChangeDetected := false, changeTypes := [] },
       [UIEvent.statusCompressing, UIEvent.statusUploading] ++
         (if autosave then [] else [UIEvent.statusUploadComplete, UIEvent.clearStatus 3])) ∧
    (autosave = false →
      UIEvent.statusUploadComplete ∈
        (process_send compress upload s g filepath autosave current_hash now).2.2) ∧
    (autosave = true →
      UIEvent.statusUploadComplete ∉
        (process_send compress upload s g filepath autosave current_hash now).2.2) := by
  have hmain : process_send compress upload s g filepath autosave current_hash now =
      ({ s with last_file_hash := current_hash, last_send_time := now, commit_message := "" },
       { realChangeDetected := false, changeTypes := [] },
       [UIEvent.statusCompressing, UIEvent.statusUploading] ++
         (if autosave then [] else [UIEvent.statusUploadComplete, UIEvent.clearStatus 3])) := by
    simp only [process_send, hc, hu]
  refine ⟨hmain, fun ha => ?_, fun ha => ?_⟩
  · rw [hmain, ha]
    simp
  · rw [hmain, ha]
    simp

/-- Witness for C2 on concrete collaborators that both succeed. -/
theorem c2_success_updates_state_witness :
    process_send (fun _ => Except.ok "/tmp/a.7z") (fun _ _ _ => Except.ok ())
        ⟨"hook", true, "msg", 30, 0, "old"⟩ ⟨true, ["Geometry"]⟩ "a.blend" false "new" 5 =
      (⟨"hook", true, "", 30, 5, "new"⟩, ⟨false, []⟩,
       [UIEvent.statusCompressing, UIEvent.statusUploading] ++
         (if false then [] else [UIEvent.statusUploadComplete, UIEvent.clearStatus 3])) ∧
    (false = false →
      UIEvent.statusUploadComplete ∈
        (process_send (fun _ => Except.ok "/tmp/a.7z") (fun _ _ _ => Except.ok ())
          ⟨"hook", true, "msg", 30, 0, "old"⟩ ⟨true, ["Geometry"]⟩ "a.blend" false "new" 5).2.2) ∧
    (false = true →
      UIEvent.statusUploadComplete ∉
        (process_send (fun _ => Except.ok "/tmp/a.7z") (fun _ _ _ => Except.ok ())
          ⟨"hook", true, "msg", 30, 0, "old"⟩ ⟨true, ["Geometry"]⟩ "a.blend" false "new" 5).2.2) :=
  c2_success_updates_state (fun _ => Except.ok "/tmp/a.7z") (fun _ _ _ => Except.ok ())
    ⟨"hook", true, "msg", 30, 0, "old"⟩ ⟨true, ["Geometry"]⟩ "a.blend" false "new" 5
    "/tmp/a.7z" rfl rfl

/-- C3: a job whose compression step or upload step raises terminates
with the error notice (and its delayed status clear) as the only
emission after the failing step, and leaves the settings record and the
globals byte-for-byte unchanged. -/
theorem c3_failure_leaves_state
    (compress : String → Except String String)
    (upload : String → String → String → Except String Unit)
    (s : DiscordProjectSettings) (g : Globals)
    (filepath : String) (autosave : Bool) (current_hash : String) (now : ℚ)
    (e : String) :
    (compress filepath = Except.error e →
      process_send compress upload s g filepath autosave current_hash now =
        (s, g, [UIEvent.statusCompressing, UIEvent.errorNotice e, UIEvent.clearStatus 3])) ∧
    (∀ archive, compress filepath = Except.ok archive →
      upload s.webhook_url archive (build_commit_message s g.changeTypes) = Except.error e →
      process_send compress upload s g filepath autosave current_hash now =
        (s, g, [UIEvent.statusCompressing, UIEvent.statusUploading,
                UIEvent.errorNotice e, UIEvent.clearStatus 3])) := by
  refine ⟨fun hc => ?_, fun archive hc hu => ?_⟩
  · simp only [process_send, hc]
  · simp only [process_send, hc, hu]

/-- Witness for C3: a failing compressor and a failing uploader, each on
concrete inputs, leave the concrete state untouched. -/
theorem c3_failure_leaves_state_witness :
    process_send (fun _ => Except.error "7z failed") (fun _ _ _ => Except.ok ())
        ⟨"hook", true, "msg", 30, 7, "old"⟩ ⟨true, ["Transform"]⟩ "a.blend" false "new" 9 =
      (⟨"hook", true, "msg", 30, 7, "old"⟩, ⟨true, ["Transform"]⟩,
       [UIEvent.statusCompressing, UIEvent.errorNotice "7z failed", UIEvent.clearStatus 3]) ∧
    process_send (fun _ => Except.ok "/tmp/a.7z") (fun _ _ _ => Except.error "HTTP 404")
        ⟨"hook", true, "msg", 30, 7, "old"⟩ ⟨true, ["Transform"]⟩ "a.blend" false "new" 9 =
      (⟨"hook", true, "msg", 30, 7, "old"⟩, ⟨true, ["Transform"]⟩,
       [UIEvent.statusCompressing, UIEvent.statusUploading,
        UIEvent.errorNotice "HTTP 404", UIEvent.clearStatus 3]) :=
  ⟨(c3_failure_leaves_state (fun _ => Except.error "7z failed") (fun _ _ _ => Except.ok ())
      ⟨"hook", true, "msg", 30, 7, "old"⟩ ⟨true, ["Transform"]⟩ "a.blend" false "new" 9
      "7z failed").1 rfl,
   (c3_failure_leaves_state (fun _ => Except.ok "/tmp/a.7z") (fun _ _ _ => Except.error "HTTP 404")
      ⟨"hook", true, "msg", 30, 7, "old"⟩ ⟨true, ["Transform"]⟩ "a.blend" false "new" 9
      "HTTP 404").2 "/tmp/a.7z" rfl rfl⟩

/-- C9: configuration-based skips emit nothing; cooldown and no-change
skips emit nothing on autosave-triggered saves and emit the
corresponding notice on explicit saves; and a failing job always emits
the error notice regardless of the autosave flag. -/
theorem c9_notice_visibility
    (H : List Nat → String) (fs : String → Option (List Nat))
    (s : DiscordProjectSettings) (filepath : String) (now : ℚ) (g : Globals)
    (compress : String → Except String String)
    (upload : String → String → String → Except String Unit)
    (autosave : Bool) (current_hash : String) (e : String) :
    ((¬ s.auto_send ∨ filepath = "" ∨ s.webhook_url = "") →
      on_save_post H fs s filepath now g =
        Except.ok (GateDecision.SkipNotConfigured, [], Option.none)) ∧
    (s.auto_send → filepath ≠ "" → s.webhook_url ≠ "" →
      (is_cooldown_active s now).1 = true →
      on_save_post H fs s filepath now g =
        Except.ok (GateDecision.SkipCooldown (is_cooldown_active s now).2,
          (if is_autosave filepath then []
           else [UIEvent.cooldownNotice (is_cooldown_active s now).2]),
          Option.none)) ∧
    (∀ bytes, s.auto_send → filepath ≠ "" → s.webhook_url ≠ "" →
      (is_cooldown_active s now).1 = false →
      fs filepath = Option.some bytes →
      (compute_partial_hash H bytes = s.last_file_hash ∨ g.realChangeDetected = false) →
      on_save_post H fs s filepath now g =
        Except.ok (GateDecision.SkipNoChange,
          (if is_autosave filepath then [] else [UIEvent.noChangeNotice]),
          Option.none)) ∧
    (compress filepath = Except.error e →
      UIEvent.errorNotice e ∈
        (process_send compress upload s g filepath autosave current_hash now).2.2) ∧
    (∀ archive, compress filepath = Except.ok archive →
      upload s.webhook_url archive (build_commit_message s g.changeTypes) = Except.error e →
      UIEvent.errorNotice e ∈
        (process_send compress upload s g filepath autosave current_hash now).2.2) := by
  refine ⟨fun h => ?_, fun h1 h2 h3 h4 => ?_, fun bytes h1 h2 h3 h4 h5 h6 => ?_,
          fun hc => ?_, fun archive hc hu => ?_⟩
  · simp only [on_save_post]
    rw [if_pos h]
  · simp only [on_save_post]
    rw [if_neg (by simp [h1, h2, h3]), if_pos h4]
  · simp only [on_save_post]
    rw [if_neg (by simp [h1, h2, h3]), if_neg (by simp [h4]), h5]
    have h6' : compute_partial_hash H bytes = s.last_file_hash ∨ ¬ g.realChangeDetected := by
      rcases h6 with h | h
      · exact Or.inl h
      · exact Or.inr (by simp [h])
    simp only [if_pos h6']
  · simp only [process_send, hc]
    simp
  · simp only [process_send, hc, hu]
    simp

/-- Witness for C9: a configured-off save, a visible cooldown notice on
a manual save, a silent no-change skip on an autosave, and failing jobs
on both an autosave and a manual save. -/
theorem c9_notice_visibility_witness :
    on_save_post (fun _ => "fp") (fun _ => Option.some [1, 2, 3])
        ⟨"hook", false, "", 30, 0, "old"⟩ "a.blend" 100 ⟨true, []⟩ =
      Except.ok (GateDecision.SkipNotConfigured, [], Option.none) ∧
    on_save_post (fun _ => "fp") (fun _ => Option.some [1, 2, 3])
        ⟨"hook", true, "", 30, 90, "old"⟩ "a.blend" 100 ⟨true, []⟩ =
      Except.ok
        (GateDecision.SkipCooldown
          (is_cooldown_active ⟨"hook", true, "", 30, 90, "old"⟩ 100).2,
         (if is_autosave "a.blend" then []
          else [UIEvent.cooldownNotice
            (is_cooldown_active ⟨"hook", true, "", 30, 90, "old"⟩ 100).2]),
         Option.none) ∧
    on_save_post (fun _ => "fp") (fun _ => Option.some [1, 2, 3])
        ⟨"hook", true, "", 30, 0, "fp"⟩ "autosave.blend" 100 ⟨true, []⟩ =
      Except.ok (GateDecision.SkipNoChange,
        (if is_autosave "autosave.blend" then [] else [UIEvent.noChangeNotice]),
        Option.none) ∧
    UIEvent.errorNotice "boom" ∈
      (process_send (fun _ => Except.error "boom") (fun _ _ _ => Except.ok ())
        ⟨"hook", true, "", 30, 0, "old"⟩ ⟨true, []⟩ "autosave.blend" true "new" 5).2.2 ∧
    UIEvent.errorNotice "boom" ∈
      (process_send (fun _ => Except.error "boom") (fun _ _ _ => Except.ok ())
        ⟨"hook", true, "", 30, 0, "old"⟩ ⟨true, []⟩ "a.blend" false "new" 5).2.2 :=
  ⟨(c9_notice_visibility (fun _ => "fp") (fun _ => Option.some [1, 2, 3])
      ⟨"hook", false, "", 30, 0, "old"⟩ "a.blend" 100 ⟨true, []⟩
      (fun _ => Except.error "boom") (fun _ _ _ => Except.ok ()) true "new" "boom").1
      (Or.inl (by decide)),
   (c9_notice_visibility (fun _ => "fp") (fun _ => Option.some [1, 2, 3])
      ⟨"hook", true, "", 30, 90, "old"⟩ "a.blend" 100 ⟨true, []⟩
      (fun _ => Except.error "boom") (fun _ _ _ => Except.ok ()) true "new" "boom").2.1
      rfl (by decide) (by decide) (by simp [is_cooldown_active]; norm_num),
   (c9_notice_visibility (fun _ => "fp") (fun _ => Option.some [1, 2, 3])
      ⟨"hook", true, "", 30, 0, "fp"⟩ "autosave.blend" 100 ⟨true, []⟩
      (fun _ => Except.error "boom") (fun _ _ _ => Except.ok ()) true "new" "boom").2.2.1
      [1, 2, 3] rfl (by decide) (by decide) (by simp [is_cooldown_active]) rfl (Or.inl rfl),
   (c9_notice_visibility (fun _ => "fp") (fun _ => Option.some [1, 2, 3])
      ⟨"hook", true, "", 30, 0, "old"⟩ "autosave.blend" 5 ⟨true, []⟩
      (fun _ => Except.error "boom") (fun _ _ _ => Except.ok ()) true "new" "boom").2.2.2.1
      rfl,
   (c9_notice_visibility (fun _ => "fp") (fun _ => Option.some [1, 2, 3])
      ⟨"hook", true, "", 30, 0, "old"⟩ "a.blend" 5 ⟨true, []⟩
      (fun _ => Except.error "boom") (fun _ _ _ => Except.ok ()) false "new" "boom").2.2.2.1
      rfl⟩

/-- Helper: the save handler's `Send` branch, reduced: configured, no
cooldown, readable file, fingerprint differs and the global flag is up. -/
theorem on_save_post_send_eq
    (H : List Nat → String) (fs : String → Option (List Nat))
    (s : DiscordProjectSettings) (filepath : String) (now : ℚ) (g : Globals)
    (bytes : List Nat)
    (hcfg : ¬(¬ s.auto_send ∨ filepath = "" ∨ s.webhook_url = ""))
    (hcd : (is_cooldown_active s now).1 = false)
    (hfs : fs filepath = Option.some bytes)
    (hne : ¬(compute_partial_hash H bytes = s.last_file_hash ∨ ¬ g.realChangeDetected)) :
    on_save_post H fs s filepath now g =
      Except.ok (GateDecision.Send (compute_partial_hash H bytes), [],
        Option.some ⟨filepath, is_autosave filepath, compute_partial_hash H bytes⟩) := by
  simp only [on_save_post]
  rw [if_neg hcfg, if_neg (by simp [hcd])]
  simp only [hfs]
  rw [if_neg hne]

/-- Helper: the save handler's `SkipNoChange` branch, reduced. -/
theorem on_save_post_nochange_eq
    (H : List Nat → String) (fs : String → Option (List Nat))
    (s : DiscordProjectSettings) (filepath : String) (now : ℚ) (g : Globals)
    (bytes : List Nat)
    (hcfg : ¬(¬ s.auto_send ∨ filepath = "" ∨ s.webhook_url = ""))
    (hcd : (is_cooldown_active s now).1 = false)
    (hfs : fs filepath = Option.some bytes)
    (heq : compute_partial_hash H bytes = s.last_file_hash ∨ ¬ g.realChangeDetected) :
    on_save_post H fs s filepath now g =
      Except.ok (GateDecision.SkipNoChange,
        (if is_autosave filepath then [] else [UIEvent.noChangeNotice]),
        Option.none) := by
  simp only [on_save_post]
  rw [if_neg hcfg, if_neg (by simp [hcd])]
  simp only [hfs]
  rw [if_pos heq]

/-- C1 counterexample: a fully configured save with the cooldown
inactive and the fingerprint different from `lastFingerprint`, where the
decision is nevertheless `SkipNoChange` (no job) because the hidden
global `_REAL_CHANGE_DETECTED` flag is down; flipping only that hidden
flag — same state, same file bytes, same clock — flips the decision to
`Send`, so the decision is not determined by `(state, file-bytes, now)`
alone. -/
theorem c1_hidden_flag_counterexample :
    compute_partial_hash (fun _ => "fp") [1, 2, 3] ≠ "old" ∧
    (is_cooldown_active ⟨"hook", true, "", 30, 0, "old"⟩ 5).1 = false ∧
    on_save_post (fun _ => "fp") (fun _ => Option.some [1, 2, 3])
        ⟨"hook", true, "", 30, 0, "old"⟩ "a.blend" 5 ⟨false, []⟩ =
      Except.ok (GateDecision.SkipNoChange, [UIEvent.noChangeNotice], Option.none) ∧
    on_save_post (fun _ => "fp") (fun _ => Option.some [1, 2, 3])
        ⟨"hook", true, "", 30, 0, "old"⟩ "a.blend" 5 ⟨true, []⟩ =
      Except.ok (GateDecision.Send "fp", [],
        Option.some ⟨"a.blend", false, "fp"⟩) := by
  refine ⟨by decide, by simp [is_cooldown_active], ?_, ?_⟩
  · rw [on_save_post_nochange_eq (fun _ => "fp") (fun _ => Option.some [1, 2, 3])
        ⟨"hook", true, "", 30, 0, "old"⟩ "a.blend" 5 ⟨false, []⟩ [1, 2, 3]
        (by simp) (by simp [is_cooldown_active]) rfl (Or.inr (by simp))]
    rw [if_neg (by decide)]
  · rw [on_save_post_send_eq (fun _ => "fp") (fun _ => Option.some [1, 2, 3])
        ⟨"hook", true, "", 30, 0, "old"⟩ "a.blend" 5 ⟨true, []⟩ [1, 2, 3]
        (by simp) (by simp [is_cooldown_active]) rfl (by simp; decide)]
    have : is_autosave "a.blend" = false := by decide
    rw [this]
    rfl

/-- C1 amended: for a configured save with the cooldown inactive, the
gate decision is `Send(fp)` exactly when `fp` differs from
`lastFingerprint` AND the global edit-detected flag is up; and the
decision is a function of `(state, file-bytes, now, flag)` — the handler
reads the globals only through the `realChangeDetected` flag. -/
theorem c1_gate_decision_amended
    (H : List Nat → String) (fs : String → Option (List Nat))
    (s : DiscordProjectSettings) (filepath : String) (now : ℚ) (g : Globals)
    (bytes : List Nat)
    (hcfg : ¬(¬ s.auto_send ∨ filepath = "" ∨ s.webhook_url = ""))
    (hcd : (is_cooldown_active s now).1 = false)
    (hfs : fs filepath = Option.some bytes) :
    (on_save_post H fs s filepath now g =
        Except.ok (GateDecision.Send (compute_partial_hash H bytes), [],
          Option.some ⟨filepath, is_autosave filepath, compute_partial_hash H bytes⟩) ↔
      (compute_partial_hash H bytes ≠ s.last_file_hash ∧ g.realChangeDetected = true)) ∧
    (∀ g₂ : Globals, g₂.realChangeDetected = g.realChangeDetected →
      on_save_post H fs s filepath now g₂ = on_save_post H fs s filepath now g) := by
  constructor
  · constructor
    · intro h
      by_cases hbr : compute_partial_hash H bytes = s.last_file_hash ∨ ¬ g.realChangeDetected
      · rw [on_save_post_nochange_eq H fs s filepath now g bytes hcfg hcd hfs hbr] at h
        simp at h
      · push_neg at hbr
        exact ⟨hbr.1, by simpa using hbr.2⟩
    · intro h
      exact on_save_post_send_eq H fs s filepath now g bytes hcfg hcd hfs
        (by simp [h.1, h.2])
  · intro g₂ hg
    simp only [on_save_post, hg]

/-- Witness for the amended C1: with the flag up and a fresh
fingerprint the decision is `Send`, and a globals record differing only
in the (unread) change-type list gives the identical result. -/
theorem c1_gate_decision_amended_witness :
    on_save_post (fun _ => "fp") (fun _ => Option.some [7])
        ⟨"hook", true, "", 30, 0, "old"⟩ "b.blend" 5 ⟨true, ["Shading"]⟩ =
      Except.ok (GateDecision.Send (compute_partial_hash (fun _ => "fp") [7]), [],
        Option.some ⟨"b.blend", is_autosave "b.blend", compute_partial_hash (fun _ => "fp") [7]⟩) ∧
    on_save_post (fun _ => "fp") (fun _ => Option.some [7])
        ⟨"hook", true, "", 30, 0, "old"⟩ "b.blend" 5 ⟨true, []⟩ =
      on_save_post (fun _ => "fp") (fun _ => Option.some [7])
        ⟨"hook", true, "", 30, 0, "old"⟩ "b.blend" 5 ⟨true, ["Shading"]⟩ :=
  ⟨((c1_gate_decision_amended (fun _ => "fp") (fun _ => Option.some [7])
      ⟨"hook", true, "", 30, 0, "old"⟩ "b.blend" 5 ⟨true, ["Shading"]⟩ [7]
      (by simp) (by simp [is_cooldown_active]) rfl).1).mpr ⟨by decide, rfl⟩,
   (c1_gate_decision_amended (fun _ => "fp") (fun _ => Option.some [7])
      ⟨"hook", true, "", 30, 0, "old"⟩ "b.blend" 5 ⟨true, ["Shading"]⟩ [7]
      (by simp) (by simp [is_cooldown_active]) rfl).2 ⟨true, []⟩ rfl⟩

/-- C7: the failing trace — two save events in rapid succession while
the first background job is still in flight (so neither the settings
nor the globals have been rewritten) each hand a fresh job to
`threading.Thread(...).start()`: two upload jobs run concurrently, the
second submission is neither rejected nor queued. -/
theorem c7_two_concurrent_jobs :
    jobs_after_two_saves (fun _ => "fp") (fun _ => Option.some [1, 2, 3])
      ⟨"hook", true, "", 30, 0, "old"⟩ "a.blend" 5 6 ⟨true, []⟩ = 2 := by
  unfold jobs_after_two_saves
  rw [on_save_post_send_eq (fun _ => "fp") (fun _ => Option.some [1, 2, 3])
      ⟨"hook", true, "", 30, 0, "old"⟩ "a.blend" 5 ⟨true, []⟩ [1, 2, 3]
      (by simp) (by simp [is_cooldown_active]) rfl (by simp; decide),
    on_save_post_send_eq (fun _ => "fp") (fun _ => Option.some [1, 2, 3])
      ⟨"hook", true, "", 30, 0, "old"⟩ "a.blend" 6 ⟨true, []⟩ [1, 2, 3]
      (by simp) (by simp [is_cooldown_active]) rfl (by simp; decide)]
  rfl

/-- C10: `DISCORDSEND_OT_SendNow.execute` has no configuration guard:
with an unconfigured (empty) webhook URL but a changed file it still
hands a job to the background thread, and with an empty file path
(unsaved project, so no file exists at `""`) the fingerprint computation
raises and the exception propagates out of `execute`. -/
theorem c10_sendnow_no_config_guard
    (H : List Nat → String) (fs : String → Option (List Nat))
    (s : DiscordProjectSettings) (filepath : String) (now : ℚ) (g : Globals)
    (bytes : List Nat)
    (hcd : (is_cooldown_active s now).1 = false) :
    (s.webhook_url = "" → fs filepath = Option.some bytes →
      compute_partial_hash H bytes ≠ s.last_file_hash → g.realChangeDetected = true →
      sendnow_execute H fs s filepath now g =
        Except.ok ([], Option.some ⟨filepath, false, compute_partial_hash H bytes⟩)) ∧
    (fs "" = Option.none →
      ∃ e, sendnow_execute H fs s "" now g = Except.error e) := by
  constructor
  · intro hweb hfs hne hflag
    simp only [sendnow_execute]
    rw [if_neg (by simp [hcd])]
    simp only [hfs]
    rw [if_neg (by simp [hne, hflag])]
  · intro hnone
    refine ⟨"FileNotFoundError", ?_⟩
    simp only [sendnow_execute]
    rw [if_neg (by simp [hcd])]
    simp only [hnone]

/-- Witness for C10: an empty webhook URL still spawns the job, and an
empty file path errors out of `execute`. -/
theorem c10_sendnow_no_config_guard_witness :
    sendnow_execute (fun _ => "fp")
        (fun p => if p = "a.blend" then Option.some [1, 2, 3] else Option.none)
        ⟨"", true, "", 30, 0, "old"⟩ "a.blend" 5 ⟨true, []⟩ =
      Except.ok ([], Option.some ⟨"a.blend", false, "fp"⟩) ∧
    ∃ e, sendnow_execute (fun _ => "fp")
        (fun p => if p = "a.blend" then Option.some [1, 2, 3] else Option.none)
        ⟨"", true, "", 30, 0, "old"⟩ "" 5 ⟨true, []⟩ = Except.error e :=
  ⟨(c10_sendnow_no_config_guard (fun _ => "fp")
      (fun p => if p = "a.blend" then Option.some [1, 2, 3] else Option.none)
      ⟨"", true, "", 30, 0, "old"⟩ "a.blend" 5 ⟨true, []⟩ [1, 2, 3]
      (by simp [is_cooldown_active])).1 rfl (by decide) (by decide) rfl,
   (c10_sendnow_no_config_guard (fun _ => "fp")
      (fun p => if p = "a.blend" then Option.some [1, 2, 3] else Option.none)
      ⟨"", true, "", 30, 0, "old"⟩ "a.blend" 5 ⟨true, []⟩ [1, 2, 3]
      (by simp [is_cooldown_active])).2 (by decide)⟩

set_option maxRecDepth 8000 in
/-- Helper: the spec-side rendering of the two-part body
(`payload_json` part, then `file` part) equals the source's literal
string concatenation. -/
theorem renderMultipart_payload_file (bn payload fileData : String) :
    renderMultipart BOUNDARY
      [⟨"payload_json", "application/json", Option.none, payload⟩,
       ⟨"file", "application/x-7z-compressed", Option.some bn, fileData⟩] =
    ("--" ++ BOUNDARY ++ "\r\n" ++
     "Content-Disposition: form-data; name=\"payload_json\"\r\n" ++
     "Content-Type: application/json\r\n\r\n")
    ++ payload ++
    ("\r\n--" ++ BOUNDARY ++ "\r\n" ++
     "Content-Disposition: form-data; name=\"file\"; filename=\"" ++ bn ++ "\"\r\n" ++
     "Content-Type: application/x-7z-compressed\r\n\r\n")
    ++ fileData ++
    ("\r\n--" ++ BOUNDARY ++ "--\r\n") := by
  simp only [renderMultipart, renderPart, String.join, List.map, List.foldl, BOUNDARY]
  apply String.ext
  simp [String.data_append]

/-- C5: the uploader performs one POST whose body is exactly the
two-part multipart/form-data rendering — part `payload_json` with
content-type `application/json` and body `json.dumps({"content":
message})`, then part `file` with content-type
`application/x-7z-compressed`, filename the archive's base name, and
body the raw archive bytes — using the fixed boundary token, with
explicit `Content-Length` and `User-Agent` headers and a 30-second
timeout. -/
theorem c5_upload_wire_contract
    (fs : String → Option String) (webhook archive message fileData : String)
    (hfs : fs archive = Option.some fileData) :
    send_to_discord fs webhook archive message =
      Except.ok
        { req :=
            { url := webhook
              data := renderMultipart BOUNDARY
                [⟨"payload_json", "application/json", Option.none, json_dumps_content message⟩,
                 ⟨"file", "application/x-7z-compressed", Option.some (basename archive), fileData⟩]
              headers :=
                [("Content-Type", "multipart/form-data; boundary=" ++ BOUNDARY),
                 ("Content-Length", toString (renderMultipart BOUNDARY
                    [⟨"payload_json", "application/json", Option.none, json_dumps_content message⟩,
                     ⟨"file", "application/x-7z-compressed", Option.some (basename archive),
                      fileData⟩]).length),
                 ("User-Agent", "BlenderDiscordUploader")]
              method := "POST" }
          timeout := 30 } := by
  rw [renderMultipart_payload_file (basename archive) (json_dumps_content message) fileData]
  simp only [send_to_discord, hfs]

/-- Witness for C5 on a concrete endpoint, archive and message. -/
theorem c5_upload_wire_contract_witness :
    send_to_discord (fun p => if p = "a.7z" then Option.some "DATA" else Option.none)
        "w" "a.7z" "m" =
      Except.ok
        { req :=
            { url := "w"
              data := renderMultipart BOUNDARY
                [⟨"payload_json", "application/json", Option.none, json_dumps_content "m"⟩,
                 ⟨"file", "application/x-7z-compressed", Option.some (basename "a.7z"), "DATA"⟩]
              headers :=
                [("Content-Type", "multipart/form-data; boundary=" ++ BOUNDARY),
                 ("Content-Length", toString (renderMultipart BOUNDARY
                    [⟨"payload_json", "application/json", Option.none, json_dumps_content "m"⟩,
                     ⟨"file", "application/x-7z-compressed", Option.some (basename "a.7z"),
                      "DATA"⟩]).length),
                 ("User-Agent", "BlenderDiscordUploader")]
              method := "POST" }
          timeout := 30 } :=
  c5_upload_wire_contract (fun p => if p = "a.7z" then Option.some "DATA" else Option.none)
    "w" "a.7z" "m" "DATA" (by decide)

/-- Helper: one unfolding step of `replaceDotBlend` on a cons cell. -/
theorem replaceDotBlend_cons_eq (c : Char) (rest : List Char) :
    replaceDotBlend (c :: rest) =
      if ".blend".toList.isPrefixOf (c :: rest) then
        ".7z".toList ++ replaceDotBlend (rest.drop 5)
      else c :: replaceDotBlend rest := by
  simp only [replaceDotBlend]

/-- Helper: `take 5` of `cs ++ X` only sees `X.take 5`. -/
theorem take_five_agree (cs X Y : List Char) (hXY : X.take 5 = Y.take 5) :
    (cs ++ X).take 5 = (cs ++ Y).take 5 := by
  rw [List.take_append_eq_append_take, List.take_append_eq_append_take]
  congr 1
  have h5 : 5 - cs.length ≤ 5 := Nat.sub_le _ _
  calc X.take (5 - cs.length) = (X.take 5).take (5 - cs.length) := by
        rw [List.take_take, Nat.min_eq_left h5]
    _ = (Y.take 5).take (5 - cs.length) := by rw [hXY]
    _ = Y.take (5 - cs.length) := by
        rw [List.take_take, Nat.min_eq_left h5]

/-- Helper: `".blend"` has no non-trivial border, so a match of
`".blend"` starting inside `c :: cs` of `c :: cs ++ ".blend"` is
already visible in `c :: cs ++ ".blen"`. -/
theorem isPrefixOf_stem_lift (c : Char) (cs : List Char)
    (h : ".blend".toList.isPrefixOf (c :: (cs ++ ".blend".toList)) = true) :
    ".blend".toList.isPrefixOf (c :: (cs ++ ['.', 'b', 'l', 'e', 'n'])) = true := by
  have hp : ".blend".toList <+: c :: (cs ++ ".blend".toList) :=
    ( List.isPrefixOf_iff_prefix).mp h
  have hq := ( List.prefix_iff_eq_take).mp hp
  have hlen : (".blend".toList).length = 6 := by decide
  rw [hlen] at hq
  have h1 : (c :: (cs ++ ".blend".toList)).take 6 = c :: ((cs ++ ".blend".toList)).take 5 := rfl
  have h2 : (c :: (cs ++ ['.', 'b', 'l', 'e', 'n'])).take 6
      = c :: ((cs ++ ['.', 'b', 'l', 'e', 'n'])).take 5 := rfl
  rw [h1, take_five_agree cs (".blend".toList) (['.', 'b', 'l', 'e', 'n']) (by decide)] at hq
  apply ( List.isPrefixOf_iff_prefix).mpr
  apply ( List.prefix_iff_eq_take).mpr
  rw [hlen, h2]
  exact hq

/-- Helper: when `".blend"` does not occur before the final extension,
`replaceDotBlend` rewrites exactly that extension. -/
theorem replaceDotBlend_stem (stem : List Char)
    (hno : containsSub ".blend".toList (stem ++ ['.', 'b', 'l', 'e', 'n']) = false) :
    replaceDotBlend (stem ++ ".blend".toList) = stem ++ ".7z".toList := by
  induction stem with
  | nil => simp [replaceDotBlend]
  | cons c cs ih =>
    have hno2 : containsSub ".blend".toList (c :: (cs ++ ['.', 'b', 'l', 'e', 'n'])) = false := by
      simpa using hno
    rw [containsSub] at hno2
    rcases Bool.or_eq_false_iff.mp hno2 with ⟨hnp, hrest⟩
    have hnp' : ".blend".toList.isPrefixOf (c :: (cs ++ ".blend".toList)) = false := by
      by_contra hcon
      have hcon' : ".blend".toList.isPrefixOf (c :: (cs ++ ".blend".toList)) = true := by
        revert hcon
        cases ".blend".toList.isPrefixOf (c :: (cs ++ ".blend".toList)) <;> simp
      rw [isPrefixOf_stem_lift c cs hcon'] at hnp
      simp at hnp
    rw [List.cons_append, replaceDotBlend_cons_eq,
      if_neg (by rw [hnp']; exact Bool.false_ne_true), ih hrest, List.cons_append]

/-- Rewrites exactly the final `".blend"` extension of a base name to
`".7z"`, leaving the rest of the name unchanged.  Modelled from the
spec's words ("the project's extension rewritten to the archive
extension") for comparison with the source's `str.replace`. -/
def spec_rewrite_extension (base : List Char) : List Char :=
  if ".blend".toList.isSuffixOf base then
    base.take (base.length - 6) ++ ".7z".toList
  else
    base

/-- C8 counterexample: for the base name `"a.blend.blend"` the source's
`str.replace` rewrites both occurrences, producing `"a.7z.7z"`, whereas
rewriting exactly the extension would produce `"a.blend.7z"` — the rest
of the base name is not left unchanged. -/
theorem c8_whole_name_replace_counterexample :
    compress_out_path "/tmp" "a.blend.blend" = path_join "/tmp" "a.7z.7z" ∧
    String.mk (spec_rewrite_extension (basename "a.blend.blend").toList) = "a.blend.7z" ∧
    compress_out_path "/tmp" "a.blend.blend" ≠
      path_join "/tmp" (String.mk (spec_rewrite_extension (basename "a.blend.blend").toList)) := by
  have hb : (basename "a.blend.blend").toList = "a.blend.blend".toList := by decide
  have hr : replaceDotBlend "a.blend.blend".toList = "a.7z.7z".toList := by
    simp [replaceDotBlend]
  have h1 : compress_out_path "/tmp" "a.blend.blend" = path_join "/tmp" "a.7z.7z" := by
    simp only [compress_out_path]
    rw [hb, hr]
    rfl
  have h2 : String.mk (spec_rewrite_extension (basename "a.blend.blend").toList)
      = "a.blend.7z" := by decide
  refine ⟨h1, h2, ?_⟩
  rw [h1, h2]
  decide

/-- C8 amended: the source derives the output name by replacing every
occurrence of `".blend"` in the base name with `".7z"`; when `".blend"`
occurs only as the final extension (no occurrence before it), exactly
the extension is rewritten and the rest of the base name is unchanged,
and the result is placed under the temporary directory. -/
theorem c8_output_path_amended (tempdir filepath stem : String)
    (hbase : (basename filepath).toList = stem.toList ++ ".blend".toList)
    (hno : containsSub ".blend".toList (stem.toList ++ ['.', 'b', 'l', 'e', 'n']) = false) :
    compress_out_path tempdir filepath = path_join tempdir (stem ++ ".7z") := by
  simp only [compress_out_path]
  rw [hbase, replaceDotBlend_stem stem.toList hno]
  rfl

/-- Witness for the amended C8 on a concrete Windows-style path. -/
theorem c8_output_path_amended_witness :
    compress_out_path "/tmp" "C:/work/scene.blend" = path_join "/tmp" ("scene" ++ ".7z") :=
  c8_output_path_amended "/tmp" "C:/work/scene.blend" "scene" (by decide) (by decide)
